import Mathlib

set_option maxHeartbeats 1000000

/-!
Verification development for the SPA repository.

The definitions below are shallow embeddings of the quality-adaptation state
machine and reconnection logic of `src/lib/agora.ts`, the authentication and
pending-user migration logic of `src/lib/auth.ts`, and the channel cleanup
route `src/app/api/agora/cleanup/route.ts`.  Timestamps are modelled as
natural numbers of milliseconds; network quality values are integers, as the
SDK may report -1 for unknown.
-/

/-! ### Quality presets (src/lib/agora.ts, QUALITY_PRESETS and getQualityLevel) -/

inductive Quality where
  | excellent
  | good
  | fair
  | poor
  | veryPoor
deriving DecidableEq, Repr

/-- `getQualityLevel` from src/lib/agora.ts lines 668-677: lower number means
better quality. -/
def getQualityLevel : Quality → Nat
  | .excellent => 0
  | .good => 1
  | .fair => 2
  | .poor => 3
  | .veryPoor => 4

/-- `calculateTargetQuality` from src/lib/agora.ts lines 612-625. -/
def calculateTargetQuality (uplink downlink : Int) : Quality :=
  if downlink ≤ 1 ∧ uplink ≤ 1 then .excellent
  else if downlink ≤ 3 ∧ uplink ≤ 3 then .good
  else if downlink ≤ 5 ∧ uplink ≤ 5 then .fair
  else if downlink ≤ 7 ∧ uplink ≤ 7 then .poor
  else .veryPoor

/-! ### Quality-adaptation state machine (src/lib/agora.ts) -/

structure HistEntry where
  uplink : Int
  downlink : Int
  timestamp : Nat
  quality : Quality
deriving DecidableEq, Repr

structure NetQuality where
  uplink : Int
  downlink : Int
  timestamp : Nat
deriving DecidableEq, Repr

/-- The mutable fields of `AgoraManager` involved in quality adaptation. -/
structure QState where
  currentQuality : Quality
  consecutiveGoodReadings : Nat
  lastQualityChangeTime : Nat
  lastNetworkQuality : NetQuality
  networkQualityHistory : List HistEntry
deriving DecidableEq, Repr

def QUALITY_CHANGE_COOLDOWN : Nat := 3000

def REQUIRED_GOOD_READINGS_FOR_UPGRADE : Nat := 3

/-- The history push and trim at the end of `updateVideoQuality`
(src/lib/agora.ts lines 505-516): append an entry, keep the last 50. -/
def pushHistory (s : QState) (now : Nat) (newQuality : Quality) : List HistEntry :=
  let h := s.networkQualityHistory ++
    [{ uplink := s.lastNetworkQuality.uplink
       downlink := s.lastNetworkQuality.downlink
       timestamp := now
       quality := newQuality }]
  if h.length > 50 then h.drop (h.length - 50) else h

/-- `updateVideoQuality` from src/lib/agora.ts lines 456-517.  A no-op when the
quality is unchanged or when the cooldown window since the previous change has
not elapsed; otherwise it records the new quality and change time and pushes a
history entry. -/
def updateVideoQuality (s : QState) (newQuality : Quality) (now : Nat) : QState :=
  if s.currentQuality = newQuality then s
  else if now - s.lastQualityChangeTime < QUALITY_CHANGE_COOLDOWN then s
  else
    { s with
        currentQuality := newQuality
        lastQualityChangeTime := now
        networkQualityHistory := pushHistory s now newQuality }

/-- `shouldUpgradeQuality` from src/lib/agora.ts lines 628-647.  Mutates the
consecutive-good-readings counter, so it returns the decision together with the
updated state. -/
def shouldUpgradeQuality (s : QState) (target : Quality) : Bool × QState :=
  let currentLevel := getQualityLevel s.currentQuality
  let targetLevel := getQualityLevel target
  if targetLevel ≥ currentLevel then (false, s)
  else
    let s1 := { s with consecutiveGoodReadings := s.consecutiveGoodReadings + 1 }
    if s1.consecutiveGoodReadings ≥ REQUIRED_GOOD_READINGS_FOR_UPGRADE then (true, s1)
    else (false, s1)

/-- `shouldDowngradeQuality` from src/lib/agora.ts lines 650-665. -/
def shouldDowngradeQuality (s : QState) (target : Quality) : Bool × QState :=
  let currentLevel := getQualityLevel s.currentQuality
  let targetLevel := getQualityLevel target
  if targetLevel ≤ currentLevel then (false, s)
  else (true, { s with consecutiveGoodReadings := 0 })

/-- `determineOptimalQualityWithSmartAdaptation` from src/lib/agora.ts lines
597-609: try to upgrade, otherwise try to downgrade, resetting the counter
after either attempt goes through `updateVideoQuality`. -/
def determineOptimalQuality (s : QState) (uplink downlink : Int) (now : Nat) : QState :=
  let target := calculateTargetQuality uplink downlink
  let r1 := shouldUpgradeQuality s target
  if r1.1 then
    let s2 := updateVideoQuality r1.2 target now
    { s2 with consecutiveGoodReadings := 0 }
  else
    let r2 := shouldDowngradeQuality r1.2 target
    if r2.1 then
      let s3 := updateVideoQuality r2.2 target now
      { s3 with consecutiveGoodReadings := 0 }
    else r2.2

/-- One reported network-quality reading: the uplink and downlink scores and
the time at which the event fires. -/
structure Reading where
  uplink : Int
  downlink : Int
  now : Nat
deriving DecidableEq, Repr

/-- The `network-quality` event handler from src/lib/agora.ts lines 570-588:
store the latest reading, then run the smart adaptation. -/
def networkQualityStep (s : QState) (r : Reading) : QState :=
  let s1 := { s with
    lastNetworkQuality := { uplink := r.uplink, downlink := r.downlink, timestamp := r.now } : QState }
  determineOptimalQuality s1 r.uplink r.downlink r.now

/-- The initial values of the quality fields of `AgoraManager`
(src/lib/agora.ts lines 82-108). -/
def initQState : QState :=
  { currentQuality := .good
    consecutiveGoodReadings := 0
    lastQualityChangeTime := 0
    lastNetworkQuality := { uplink := -1, downlink := -1, timestamp := 0 }
    networkQualityHistory := [] }

/-- Process a sequence of network-quality readings. -/
def runReadings (s : QState) (rs : List Reading) : QState :=
  rs.foldl networkQualityStep s

/-- A reading is favorable when its computed target preset is strictly better
than the current preset. -/
def favorableReading (s : QState) (r : Reading) : Bool :=
  decide (getQualityLevel (calculateTargetQuality r.uplink r.downlink) <
    getQualityLevel s.currentQuality)

/-- Run a step while counting the favorable readings since the last quality
change: the count resets to zero whenever the step changes the current
quality, and otherwise increments exactly on favorable readings. -/
def favsStep (p : QState × Nat) (r : Reading) : QState × Nat :=
  let s2 := networkQualityStep p.1 r
  (s2, if s2.currentQuality ≠ p.1.currentQuality then 0
       else if favorableReading p.1 r then p.2 + 1 else p.2)

def favsRun (p : QState × Nat) (rs : List Reading) : QState × Nat :=
  rs.foldl favsStep p

/-- The number of favorable readings seen since the last quality change (or
since the start of the trace when no change occurred). -/
def favsSinceLastChange (s : QState) (rs : List Reading) : Nat :=
  (favsRun (s, 0) rs).2

/-- Whether a boolean list contains three consecutive `true` entries. -/
def hasThreeConsecutiveTrue : List Bool → Bool
  | true :: true :: true :: _ => true
  | _ :: rest => hasThreeConsecutiveTrue rest
  | [] => false

/-- The favorability flag of each reading of a trace, taken at the state in
which that reading is handled. -/
def runFlags : QState → List Reading → List Bool
  | _, [] => []
  | s, r :: rs => favorableReading s r :: runFlags (networkQualityStep s r) rs

/-- C3 counterexample trace: favorable, neutral, favorable, favorable. -/
def c3ReadingA : Reading := { uplink := 0, downlink := 0, now := 4000 }

def c3ReadingB : Reading := { uplink := 2, downlink := 2, now := 4100 }

def c3ReadingC : Reading := { uplink := 0, downlink := 0, now := 4200 }

def c3ReadingD : Reading := { uplink := 0, downlink := 0, now := 4300 }

/-- C3 witness trace: three favorable readings outside the cooldown window. -/
def c3WitReadA : Reading := { uplink := 0, downlink := 0, now := 3500 }

def c3WitReadB : Reading := { uplink := 0, downlink := 0, now := 3600 }

def c3WitReadC : Reading := { uplink := 0, downlink := 0, now := 3700 }

/-- C4 inputs: a reading that downgrades good to fair at time 10000, and a
second, strictly worse reading inside the cooldown window. -/
def c4ReadingA : Reading := { uplink := 4, downlink := 4, now := 10000 }

def c4ReadingB : Reading := { uplink := 6, downlink := 6, now := 11000 }

/-! ### Authentication model (src/lib/auth.ts) -/

inductive UserRole where
  | admin
  | publisher
  | subscriber
deriving DecidableEq, Repr

/-- A Firestore user document (the `UserProfile` interface plus the pending
fields, src/lib/auth.ts lines 13-26).  `id` is the document id; for real
accounts it equals the auth uid. -/
structure UserDoc where
  id : String
  email : String
  role : UserRole
  displayName : String
  isActive : Bool
  isPending : Bool
  pendingPassword : Option String
  sessionId : Option String
  lastLoginAt : Option Nat
deriving DecidableEq, Repr

/-- A document of the streamPermissions collection, restricted to the field
touched by migration. -/
structure PermissionDoc where
  id : String
  subscriberId : String
deriving DecidableEq, Repr

/-- A document of the zoomPublisherAssignments collection, restricted to the
field touched by migration. -/
structure ZoomAssignmentDoc where
  id : String
  subscriberId : String
deriving DecidableEq, Repr

structure FirestoreState where
  users : List UserDoc
  streamPermissions : List PermissionDoc
  zoomAssignments : List ZoomAssignmentDoc
deriving DecidableEq, Repr

/-- The observable world: the database, the browser local storage slot for
the session token, and the currently signed-in auth user. -/
structure World where
  fs : FirestoreState
  localSessionId : Option String
  authUser : Option String
deriving DecidableEq, Repr

/-- Outcomes of the external auth-provider calls and of the nondeterministic
primitives (current time, fresh session token): `createUserResult` is what
`createUserWithEmailAndPassword` does, `signInAuthResult` what
`signInWithEmailAndPassword` does, `signOutAuthResult` what the provider
sign-out does. -/
structure AuthEnv where
  createUserResult : Except String String
  signInAuthResult : Except String String
  signOutAuthResult : Except String Unit
  now : Nat
  freshSessionId : String

/-- The `{ user, error }` object returned by `signIn` and `signUp`. -/
structure SignInOutcome where
  user : Option String
  error : Option String
deriving DecidableEq, Repr

def SESSION_TIMEOUT : Nat := 5 * 60 * 1000

def sessionBlockedMessage : String :=
  "This account is already logged in on another browser. Please sign out from there first or wait a few minutes if you closed the browser."

/-- `updateDoc` on the users collection: apply an update to the document with
the given id. -/
def updateUserDoc (users : List UserDoc) (uid : String) (f : UserDoc → UserDoc) :
    List UserDoc :=
  users.map (fun u => if u.id = uid then f u else u)

/-- The guard of the pending-user branch of `signIn` (src/lib/auth.ts lines
36-40): the first user document matching the e-mail is pending and stores the
supplied password. -/
def pendingMatch (users : List UserDoc) (email password : String) : Bool :=
  match (users.filter (fun u => u.email == email)).head? with
  | some d => d.isPending && (d.pendingPassword == some password)
  | none => false

/-- The user profile written under the new uid during migration
(src/lib/auth.ts lines 80-93): role, display name and active flag are copied
from the pending document, the pending fields are cleared. -/
def migratedProfile (email : String) (pendingUserDoc : UserDoc) (newAuthUid : String) : UserDoc :=
  { id := newAuthUid
    email := email
    role := pendingUserDoc.role
    displayName := pendingUserDoc.displayName
    isActive := pendingUserDoc.isActive
    isPending := false
    pendingPassword := none
    sessionId := none
    lastLoginAt := none }

/-- The pending-user migration branch of `signIn` (src/lib/auth.ts lines
41-118): create the auth account (already done by the caller, yielding
`newAuthUid`), rewrite the subscriberId of every streamPermissions and
zoomPublisherAssignments document that referenced the pending document id,
write the migrated profile under the new uid, give subscribers a fresh
session, and delete the old pending document. -/
def migratePendingUser (w : World) (email : String) (pendingUserDoc : UserDoc)
    (newAuthUid : String) (env : AuthEnv) : SignInOutcome × World :=
  let oldPendingId := pendingUserDoc.id
  let perms := w.fs.streamPermissions.map
    (fun p => if p.subscriberId = oldPendingId then { p with subscriberId := newAuthUid } else p)
  let zooms := w.fs.zoomAssignments.map
    (fun z => if z.subscriberId = oldPendingId then { z with subscriberId := newAuthUid } else z)
  let newProfile := migratedProfile email pendingUserDoc newAuthUid
  let users1 := (w.fs.users.filter (fun u => u.id != newAuthUid)) ++ [newProfile]
  let users2 :=
    if pendingUserDoc.role = .subscriber then
      updateUserDoc users1 newAuthUid
        (fun u => { u with sessionId := some env.freshSessionId, lastLoginAt := some env.now })
    else users1
  let localSession :=
    if pendingUserDoc.role = .subscriber then some env.freshSessionId else w.localSessionId
  let users3 := users2.filter (fun u => u.id != oldPendingId)
  ({ user := some newAuthUid, error := none },
   { fs := { users := users3, streamPermissions := perms, zoomAssignments := zooms }
     localSessionId := localSession
     authUser := some newAuthUid })

/-- The normal sign-in path of `signIn` (src/lib/auth.ts lines 121-184),
including the single-session enforcement for subscribers. -/
def normalSignIn (w : World) (env : AuthEnv) : Except String (SignInOutcome × World) :=
  match env.signInAuthResult with
  | .error e => .error e
  | .ok uid =>
    let w1 : World := { w with authUser := some uid }
    match w1.fs.users.find? (fun u => u.id == uid) with
    | some userProfile =>
      if userProfile.role = .subscriber then
        match userProfile.sessionId with
        | some sid =>
          if w1.localSessionId = some sid then
            .ok ({ user := some uid, error := none },
              { w1 with fs := { w1.fs with
                  users := updateUserDoc w1.fs.users uid
                    (fun u => { u with lastLoginAt := some env.now }) } })
          else
            let isSessionExpired :=
              match userProfile.lastLoginAt with
              | none => true
              | some t => decide (env.now - t > SESSION_TIMEOUT)
            if isSessionExpired then
              .ok ({ user := some uid, error := none },
                { w1 with
                    fs := { w1.fs with
                      users := updateUserDoc w1.fs.users uid
                        (fun u => { u with
                          sessionId := some env.freshSessionId
                          lastLoginAt := some env.now }) }
                    localSessionId := some env.freshSessionId })
            else
              .ok ({ user := none, error := some sessionBlockedMessage },
                { w1 with authUser := none })
        | none =>
          .ok ({ user := some uid, error := none },
            { w1 with
                fs := { w1.fs with
                  users := updateUserDoc w1.fs.users uid
                    (fun u => { u with
                      sessionId := some env.freshSessionId
                      lastLoginAt := some env.now }) }
                localSessionId := some env.freshSessionId })
      else .ok ({ user := some uid, error := none }, w1)
    | none => .ok ({ user := some uid, error := none }, w1)

/-- The body of `signIn` inside its try block (src/lib/auth.ts lines 29-184):
check the pending branch first, otherwise run the normal sign-in. -/
def signInBody (env : AuthEnv) (email password : String) (w : World) :
    Except String (SignInOutcome × World) :=
  match (w.fs.users.filter (fun u => u.email == email)).head? with
  | some pendingUserDoc =>
    if pendingUserDoc.isPending && (pendingUserDoc.pendingPassword == some password) then
      match env.createUserResult with
      | .error e => .error e
      | .ok newAuthUid => .ok (migratePendingUser w email pendingUserDoc newAuthUid env)
    else normalSignIn w env
  | none => normalSignIn w env

/-- `signIn` from src/lib/auth.ts lines 28-189: the catch-all turns any
internal error into `{ user: null, error: message }`. -/
def signIn (env : AuthEnv) (email password : String) (w : World) : SignInOutcome × World :=
  match signInBody env email password w with
  | .ok r => r
  | .error e => ({ user := none, error := some e }, w)

/-- The local part of an e-mail address, as in `email.split("@")[0]`. -/
def emailLocalPart (email : String) : String :=
  (email.splitOn "@").headD ""

/-- `signUp` from src/lib/auth.ts lines 191-211. -/
def signUp (env : AuthEnv) (email password : String) (role : UserRole)
    (displayName : Option String) (w : World) : SignInOutcome × World :=
  match env.createUserResult with
  | .error e => ({ user := none, error := some e }, w)
  | .ok uid =>
    let profile : UserDoc :=
      { id := uid
        email := email
        role := role
        displayName := displayName.getD (emailLocalPart email)
        isActive := true
        isPending := false
        pendingPassword := none
        sessionId := none
        lastLoginAt := none }
    ({ user := some uid, error := none },
     { fs := { w.fs with users := (w.fs.users.filter (fun u => u.id != uid)) ++ [profile] }
       localSessionId := w.localSessionId
       authUser := some uid })

/-- The writes of `signOut` before the provider sign-out (src/lib/auth.ts
lines 215-231): clear the local session token, and for a signed-in subscriber
clear the stored sessionId. -/
def signOutClear (w : World) : World :=
  let w1 : World := { w with localSessionId := none }
  match w1.authUser with
  | some uid =>
    match w1.fs.users.find? (fun u => u.id == uid) with
    | some p =>
      if p.role = .subscriber then
        { w1 with fs := { w1.fs with
            users := updateUserDoc w1.fs.users uid (fun u => { u with sessionId := none }) } }
      else w1
    | none => w1
  | none => w1

/-- `signOut` from src/lib/auth.ts lines 213-238: the catch turns a provider
failure into a returned error message. -/
def signOutOp (env : AuthEnv) (w : World) : Option String × World :=
  let w2 := signOutClear w
  match env.signOutAuthResult with
  | .ok _ => (none, { w2 with authUser := none })
  | .error e => (some e, w2)

/-- The two shapes a caught result of `signIn` can take: a user with no
error, or no user with an error message. -/
def okErrorShaped : Except String (SignInOutcome × World) → Prop
  | .ok (o, _) => (o.user = none ∧ o.error.isSome = true) ∨ (o.user.isSome = true ∧ o.error = none)
  | .error _ => True

/-- C1 witness data: a pending subscriber with dependent permission and
assignment documents. -/
def c1Pdoc : UserDoc :=
  { id := "p1", email := "a@b", role := .subscriber, displayName := "A", isActive := true, isPending := true, pendingPassword := some "pw", sessionId := none, lastLoginAt := none }

def c1World : World :=
  { fs := { users := [c1Pdoc], streamPermissions := [{ id := "perm1", subscriberId := "p1" }, { id := "perm2", subscriberId := "x" }], zoomAssignments := [{ id := "z1", subscriberId := "p1" }] }, localSessionId := none, authUser := none }

def c1Env : AuthEnv :=
  { createUserResult := .ok "u9", signInAuthResult := .error "no user", signOutAuthResult := .ok (), now := 1000, freshSessionId := "s1" }

/-- C2 witness data: a subscriber with a live session in another browser. -/
def c2Profile : UserDoc :=
  { id := "u1", email := "c@d", role := .subscriber, displayName := "C", isActive := true, isPending := false, pendingPassword := none, sessionId := some "sOld", lastLoginAt := some 100 }

def c2World : World :=
  { fs := { users := [c2Profile], streamPermissions := [], zoomAssignments := [] }, localSessionId := none, authUser := none }

def c2Env : AuthEnv :=
  { createUserResult := .error "no pending", signInAuthResult := .ok "u1", signOutAuthResult := .ok (), now := 200, freshSessionId := "f" }

/-! ### Reconnection and manager state (src/lib/agora.ts) -/

/-- The join parameters stored in `lastJoinConfig` (src/lib/agora.ts lines
12-24), restricted to the identifying fields. -/
structure JoinConfig where
  channelName : String
  role : String
  uid : Option Nat
deriving DecidableEq, Repr

/-- A scheduled rejoin attempt: the `setTimeout` delay in milliseconds and the
join configuration the scheduled callback uses. -/
structure RejoinAction where
  delayMs : Nat
  config : JoinConfig
deriving DecidableEq, Repr

/-- The `connection-state-change` handler of `setupAgoraErrorHandling`
(src/lib/agora.ts lines 878-893): when the new state is DISCONNECTED and a
last join configuration is stored, schedule exactly one rejoin after a fixed
1500 ms delay; otherwise schedule nothing. -/
def handleConnectionStateChange (lastJoinConfig : Option JoinConfig)
    (curState : String) : List RejoinAction :=
  if curState = "DISCONNECTED" then
    match lastJoinConfig with
    | none => []
    | some cfg => [{ delayMs := 1500, config := cfg }]
  else []

/-- The mutable fields of `AgoraManager` reset by `leave`
(src/lib/agora.ts lines 33-108). -/
structure MgrState where
  client : Option Unit
  localAudio : Option Unit
  localVideo : Option Unit
  screenTrack : Option Unit
  lastJoinConfig : Option JoinConfig
  remoteUsers : List Nat
  networkQualityHistory : List HistEntry
  consecutiveGoodReadings : Nat
  networkQualityInterval : Option Unit
deriving DecidableEq, Repr

/-- Outcomes of the SDK calls performed by `leave`: stopping and closing
tracks, unpublishing, and leaving the channel may each fail. -/
structure LeaveEnv where
  trackStopFails : Bool
  unpublishResult : Except String Unit
  clientLeaveResult : Except String Unit

/-- `leave` from src/lib/agora.ts lines 241-303.  The body clears the
monitoring interval, stops and closes any tracks (failures swallowed by empty
catch blocks), unpublishes and leaves when a client exists (failures logged as
warnings); the finally block then resets every field.  Returns the reset
state together with the warnings emitted by the caught failures. -/
def leave (s : MgrState) (env : LeaveEnv) : MgrState × List String :=
  let unpublishWarnings :=
    match s.client, env.unpublishResult with
    | some _, .error e => ["unpublish error: " ++ e]
    | _, _ => []
  let leaveWarnings :=
    match s.client, env.clientLeaveResult with
    | some _, .error e => ["client.leave failed: " ++ e]
    | _, _ => []
  ({ client := none
     localAudio := none
     localVideo := none
     screenTrack := none
     lastJoinConfig := none
     remoteUsers := []
     networkQualityHistory := []
     consecutiveGoodReadings := 0
     networkQualityInterval := none },
   unpublishWarnings ++ leaveWarnings)

/-- `setMicVolume` from src/lib/agora.ts lines 831-840: returns the volume
value passed to the underlying setVolume call, or none when no local audio
track exists and the call is a no-op. -/
def setMicVolume (localAudio : Option Unit) (volume : Int) : Option Int :=
  match localAudio with
  | none => none
  | some _ => some (max 0 (min 100 volume))

/-- `getMicVolume` from src/lib/agora.ts lines 843-850: 0 when no local audio
track exists, otherwise the level reported by getVolumeLevel, with failures
caught and turned into 0. -/
def getMicVolume (localAudio : Option Unit) (volumeLevel : Except String Int) : Int :=
  match localAudio with
  | none => 0
  | some _ =>
    match volumeLevel with
    | .ok v => v
    | .error _ => 0

/-- C6 witness configuration. -/
def c6Config : JoinConfig := { channelName := "room", role := "publisher", uid := none }

/-! ### Cleanup route model (src/app/api/agora/cleanup/route.ts) -/

/-- A channel as reported by the vendor REST API: `created` is a Unix time in
seconds. -/
structure AgoraChannel where
  channelName : String
  userCount : Nat
  created : Nat
deriving DecidableEq, Repr

/-- A user-kick request issued against the vendor API. -/
structure KickRequest where
  channelName : String
  uid : Nat
deriving DecidableEq, Repr

def ONE_HOUR_MS : Nat := 60 * 60 * 1000

/-- The lingering-channel filter of the GET handler (src/app/api/agora/cleanup/route.ts
lines 58-63): channels created more than one hour ago that still have users. -/
def lingeringChannels (channels : List AgoraChannel) (now : Nat) : List AgoraChannel :=
  channels.filter (fun c => decide (c.created * 1000 < now - ONE_HOUR_MS) &&
    decide (c.userCount > 0))

/-- The kick requests issued by the GET handler (src/app/api/agora/cleanup/route.ts
lines 67-125): for each lingering channel whose user-list request succeeds,
one kick per reported user. -/
def cleanupGetKicks (channels : List AgoraChannel) (usersOf : String → Option (List Nat))
    (now : Nat) : List KickRequest :=
  (lingeringChannels channels now).bind (fun c =>
    match usersOf c.channelName with
    | some us => us.map (fun u => { channelName := c.channelName, uid := u })
    | none => [])

/-- The kick requests issued by the POST handler with action force-cleanup-all
(src/app/api/agora/cleanup/route.ts lines 203-263): every channel with a
nonzero user count is processed regardless of age. -/
def cleanupForceAllKicks (channels : List AgoraChannel)
    (usersOf : String → Option (List Nat)) : List KickRequest :=
  (channels.filter (fun c => decide (c.userCount > 0))).bind (fun c =>
    match usersOf c.channelName with
    | some us => us.map (fun u => { channelName := c.channelName, uid := u })
    | none => [])

/-- C5 counterexample channel: created at millisecond 1000000, checked at
millisecond 1000000, so not older than one hour, with one user. -/
def c5Channel : AgoraChannel := { channelName := "ch", userCount := 1, created := 1000 }

/-- C5 witness channel: created one hour and more before the check, with
users. -/
def c5WitChannel : AgoraChannel := { channelName := "old", userCount := 2, created := 3600 }

/-! ## Lemmas about one adaptation step -/

theorem favsRun_fst (rs : List Reading) : ∀ p : QState × Nat,
    (favsRun p rs).1 = runReadings p.1 rs := by
  induction rs with
  | nil => intro p; rfl
  | cons r rs ih =>
    intro p
    simp only [favsRun, runReadings, List.foldl_cons] at *
    have h := ih (favsStep p r)
    simp only [favsRun, runReadings] at h
    simpa [favsStep] using h

theorem determineOptimal_change (s : QState) (u d : Int) (now : Nat) :
    (determineOptimalQuality s u d now).currentQuality = s.currentQuality ∨
    ((determineOptimalQuality s u d now).consecutiveGoodReadings = 0 ∧
     now - s.lastQualityChangeTime ≥ QUALITY_CHANGE_COOLDOWN ∧
     (determineOptimalQuality s u d now).currentQuality = calculateTargetQuality u d) := by
  simp only [determineOptimalQuality, shouldUpgradeQuality, shouldDowngradeQuality,
    updateVideoQuality]
  split_ifs <;> simp_all <;> omega

theorem determineOptimal_upgrade (s : QState) (u d : Int) (now : Nat)
    (h : getQualityLevel (determineOptimalQuality s u d now).currentQuality <
      getQualityLevel s.currentQuality) :
    s.consecutiveGoodReadings + 1 ≥ REQUIRED_GOOD_READINGS_FOR_UPGRADE ∧
    getQualityLevel (calculateTargetQuality u d) < getQualityLevel s.currentQuality ∧
    now - s.lastQualityChangeTime ≥ QUALITY_CHANGE_COOLDOWN := by
  simp only [determineOptimalQuality, shouldUpgradeQuality, shouldDowngradeQuality,
    updateVideoQuality] at h
  split_ifs at h <;> simp_all <;> omega

theorem determineOptimal_counter_le (s : QState) (u d : Int) (now : Nat) :
    (determineOptimalQuality s u d now).consecutiveGoodReadings ≤
      s.consecutiveGoodReadings +
        (if getQualityLevel (calculateTargetQuality u d) <
            getQualityLevel s.currentQuality then 1 else 0) := by
  simp only [determineOptimalQuality, shouldUpgradeQuality, shouldDowngradeQuality,
    updateVideoQuality]
  split_ifs <;> simp_all <;> omega

theorem networkQualityStep_change (s : QState) (r : Reading) :
    (networkQualityStep s r).currentQuality = s.currentQuality ∨
    ((networkQualityStep s r).consecutiveGoodReadings = 0 ∧
     r.now - s.lastQualityChangeTime ≥ QUALITY_CHANGE_COOLDOWN ∧
     (networkQualityStep s r).currentQuality = calculateTargetQuality r.uplink r.downlink) := by
  have h := determineOptimal_change
    { s with lastNetworkQuality :=
        { uplink := r.uplink, downlink := r.downlink, timestamp := r.now } }
    r.uplink r.downlink r.now
  simpa [networkQualityStep] using h

theorem networkQualityStep_upgrade (s : QState) (r : Reading)
    (h : getQualityLevel (networkQualityStep s r).currentQuality <
      getQualityLevel s.currentQuality) :
    s.consecutiveGoodReadings + 1 ≥ REQUIRED_GOOD_READINGS_FOR_UPGRADE ∧
    favorableReading s r = true ∧
    r.now - s.lastQualityChangeTime ≥ QUALITY_CHANGE_COOLDOWN := by
  have h2 := determineOptimal_upgrade
    { s with lastNetworkQuality :=
        { uplink := r.uplink, downlink := r.downlink, timestamp := r.now } }
    r.uplink r.downlink r.now (by simpa [networkQualityStep] using h)
  simp only [networkQualityStep] at *
  refine ⟨h2.1, ?_, h2.2.2⟩
  simpa [favorableReading] using h2.2.1

theorem networkQualityStep_counter_le (s : QState) (r : Reading) :
    (networkQualityStep s r).consecutiveGoodReadings ≤
      s.consecutiveGoodReadings + (if favorableReading s r then 1 else 0) := by
  have h := determineOptimal_counter_le
    { s with lastNetworkQuality :=
        { uplink := r.uplink, downlink := r.downlink, timestamp := r.now } }
    r.uplink r.downlink r.now
  simp only [networkQualityStep, favorableReading]
  simpa [decide_eq_true_eq] using h

/-- The consecutive-good-readings counter never exceeds the number of
favorable readings seen since the last quality change. -/
theorem counter_le_favs (rs : List Reading) : ∀ (s : QState) (c : Nat),
    s.consecutiveGoodReadings ≤ c →
    (favsRun (s, c) rs).1.consecutiveGoodReadings ≤ (favsRun (s, c) rs).2 := by
  induction rs with
  | nil => intro s c h; exact h
  | cons r rs ih =>
    intro s c h
    simp only [favsRun, List.foldl_cons]
    have hstep : (favsStep (s, c) r).1.consecutiveGoodReadings ≤ (favsStep (s, c) r).2 := by
      simp only [favsStep]
      rcases networkQualityStep_change s r with hsame | ⟨hzero, _, _⟩
      · simp only [hsame, ne_eq, not_true_eq_false, if_false]
        have := networkQualityStep_counter_le s r
        split_ifs at * <;> omega
      · split_ifs <;> omega
    have := ih (favsStep (s, c) r).1 (favsStep (s, c) r).2 hstep
    simpa [favsRun] using this

/-! ## C3: upgrades need favorable readings and the cooldown -/

/-- C3 (amended): in any trace of network-quality readings handled from the
initial manager state, a reading that changes the current preset to a strictly
better one is itself favorable and is preceded by at least two favorable
readings since the last quality change, so at least three favorable readings
(not necessarily consecutive) have occurred since the last change; moreover
every quality change, upgrade or downgrade, happens at least
QUALITY_CHANGE_COOLDOWN milliseconds after the previous change. -/
theorem quality_upgrade_needs_three_favorable (rs : List Reading) (r : Reading) :
    (getQualityLevel (networkQualityStep (runReadings initQState rs) r).currentQuality <
        getQualityLevel (runReadings initQState rs).currentQuality →
      favsSinceLastChange initQState rs + 1 ≥ REQUIRED_GOOD_READINGS_FOR_UPGRADE ∧
      favorableReading (runReadings initQState rs) r = true ∧
      r.now - (runReadings initQState rs).lastQualityChangeTime ≥ QUALITY_CHANGE_COOLDOWN) ∧
    ((networkQualityStep (runReadings initQState rs) r).currentQuality ≠
        (runReadings initQState rs).currentQuality →
      r.now - (runReadings initQState rs).lastQualityChangeTime ≥ QUALITY_CHANGE_COOLDOWN) := by
  constructor
  · intro hup
    have hchar := networkQualityStep_upgrade (runReadings initQState rs) r hup
    have hinv : (runReadings initQState rs).consecutiveGoodReadings ≤
        favsSinceLastChange initQState rs := by
      have h0 := counter_le_favs rs initQState 0 (by simp [initQState])
      rw [favsRun_fst] at h0
      exact h0
    refine ⟨?_, hchar.2.1, hchar.2.2⟩
    have := hchar.1
    omega
  · intro hch
    rcases networkQualityStep_change (runReadings initQState rs) r with hsame | ⟨_, hcool, _⟩
    · exact absurd hsame hch
    · exact hcool

/-- C3 counterexample: on the trace favorable, neutral, favorable, favorable
the fourth reading upgrades the preset from good to excellent, although the
trace contains no three consecutive favorable readings and no earlier quality
change (the first three readings leave the preset at its initial value), so an
upgrade can happen without three consecutive favorable readings since the last
quality change. -/
theorem quality_upgrade_without_three_consecutive :
    (runReadings initQState [c3ReadingA, c3ReadingB, c3ReadingC]).currentQuality =
      initQState.currentQuality ∧
    (runReadings initQState
      [c3ReadingA, c3ReadingB, c3ReadingC, c3ReadingD]).currentQuality = Quality.excellent ∧
    getQualityLevel Quality.excellent < getQualityLevel initQState.currentQuality ∧
    runFlags initQState [c3ReadingA, c3ReadingB, c3ReadingC, c3ReadingD] =
      [true, false, true, true] ∧
    hasThreeConsecutiveTrue
      (runFlags initQState [c3ReadingA, c3ReadingB, c3ReadingC, c3ReadingD]) = false := by
  decide

/-- Witness for the amended C3 theorem: after two favorable readings, a third
favorable reading upgrades the preset, and the three favorable readings and
the cooldown bound are concretely observed. -/
theorem quality_upgrade_needs_three_favorable_witness :
    favsSinceLastChange initQState [c3WitReadA, c3WitReadB] + 1 ≥
      REQUIRED_GOOD_READINGS_FOR_UPGRADE ∧
    favorableReading (runReadings initQState [c3WitReadA, c3WitReadB]) c3WitReadC = true ∧
    c3WitReadC.now -
      (runReadings initQState [c3WitReadA, c3WitReadB]).lastQualityChangeTime ≥
      QUALITY_CHANGE_COOLDOWN :=
  (quality_upgrade_needs_three_favorable [c3WitReadA, c3WitReadB] c3WitReadC).1 (by decide)

/-! ## C4: downgrades -/

/-- C4 (amended): a reading whose computed target preset is strictly worse
than the current preset downgrades the preset immediately, with no requirement
of repeated readings, provided the cooldown window since the previous quality
change has elapsed. -/
theorem downgrade_applied_outside_cooldown (s : QState) (r : Reading)
    (hworse : getQualityLevel s.currentQuality <
      getQualityLevel (calculateTargetQuality r.uplink r.downlink))
    (hcool : r.now - s.lastQualityChangeTime ≥ QUALITY_CHANGE_COOLDOWN) :
    (networkQualityStep s r).currentQuality = calculateTargetQuality r.uplink r.downlink := by
  simp only [networkQualityStep, determineOptimalQuality, shouldUpgradeQuality,
    shouldDowngradeQuality, updateVideoQuality]
  split_ifs with h1 h2 h3 h4 h5 <;> simp_all <;> omega

/-- C4 counterexample: after a downgrade from good to fair at time 10000, a
reading at time 11000 whose computed target (poor) is strictly worse than the
current preset (fair) does not change the preset, because the reading falls
inside the 3-second cooldown window: the downgrade is not applied in the
handling of that reading. -/
theorem downgrade_blocked_by_cooldown :
    getQualityLevel (runReadings initQState [c4ReadingA]).currentQuality <
      getQualityLevel (calculateTargetQuality c4ReadingB.uplink c4ReadingB.downlink) ∧
    (networkQualityStep (runReadings initQState [c4ReadingA]) c4ReadingB).currentQuality =
      (runReadings initQState [c4ReadingA]).currentQuality ∧
    (runReadings initQState [c4ReadingA]).currentQuality ≠
      calculateTargetQuality c4ReadingB.uplink c4ReadingB.downlink := by
  decide

/-- Witness for the amended C4 theorem: from the initial state, a reading with
a strictly worse target outside the cooldown window downgrades immediately. -/
theorem downgrade_applied_outside_cooldown_witness :
    (getQualityLevel initQState.currentQuality <
      getQualityLevel (calculateTargetQuality c4ReadingA.uplink c4ReadingA.downlink)) ∧
    (networkQualityStep initQState c4ReadingA).currentQuality =
      calculateTargetQuality c4ReadingA.uplink c4ReadingA.downlink :=
  ⟨by decide, downgrade_applied_outside_cooldown initQState c4ReadingA (by decide) (by decide)⟩

/-! ## C10: monotonicity of the target quality -/

/-- C10: `calculateTargetQuality` is monotone in network degradation: raising
the uplink or downlink score (a worse network) never yields a strictly better
target preset, under the ordering excellent, good, fair, poor, veryPoor. -/
theorem calculateTargetQuality_monotone (u d u2 d2 : Int) (hu : u ≤ u2) (hd : d ≤ d2) :
    getQualityLevel (calculateTargetQuality u d) ≤
      getQualityLevel (calculateTargetQuality u2 d2) := by
  unfold calculateTargetQuality
  split_ifs <;> simp_all [getQualityLevel] <;> omega

/-- Witness for C10 at a concrete degradation from perfect scores to the worst
scores. -/
theorem calculateTargetQuality_monotone_witness :
    (0 : Int) ≤ 8 ∧
    getQualityLevel (calculateTargetQuality 0 0) ≤ getQualityLevel (calculateTargetQuality 8 8) :=
  ⟨by decide, calculateTargetQuality_monotone 0 0 8 8 (by decide) (by decide)⟩

/-! ## C1: pending-user migration -/

/-- C1: when the e-mail matches exactly one user document, that document is
pending and stores the supplied password, and the auth provider creates the
account under a fresh uid, `signIn` returns the new user, a user document
exists under the new uid copying role and display name, every
streamPermissions and zoomPublisherAssignments document that referenced the
old pending id now references the new uid, no such document references the
old id any more, and the pending user document no longer exists. -/
theorem signIn_migrates_pending_user
    (env : AuthEnv) (email password : String) (w : World) (pdoc : UserDoc) (newUid : String)
    (hq : w.fs.users.filter (fun u => u.email == email) = [pdoc])
    (hpend : pdoc.isPending = true)
    (hpw : pdoc.pendingPassword = some password)
    (hcreate : env.createUserResult = .ok newUid)
    (hne : newUid ≠ pdoc.id) :
    (signIn env email password w).1 = { user := some newUid, error := none } ∧
    (∃ nd ∈ (signIn env email password w).2.fs.users,
      nd.id = newUid ∧ nd.role = pdoc.role ∧ nd.displayName = pdoc.displayName ∧
      nd.isPending = false) ∧
    (∀ u ∈ (signIn env email password w).2.fs.users, u.id ≠ pdoc.id) ∧
    (∀ p ∈ (signIn env email password w).2.fs.streamPermissions, p.subscriberId ≠ pdoc.id) ∧
    (∀ p ∈ w.fs.streamPermissions, p.subscriberId = pdoc.id →
      { p with subscriberId := newUid } ∈ (signIn env email password w).2.fs.streamPermissions) ∧
    (∀ z ∈ (signIn env email password w).2.fs.zoomAssignments, z.subscriberId ≠ pdoc.id) ∧
    (∀ z ∈ w.fs.zoomAssignments, z.subscriberId = pdoc.id →
      { z with subscriberId := newUid } ∈ (signIn env email password w).2.fs.zoomAssignments) := by
  have hs : signIn env email password w = migratePendingUser w email pdoc newUid env := by
    simp [signIn, signInBody, hq, hpend, hpw, hcreate]
  rw [hs]
  simp only [migratePendingUser]
  refine ⟨by trivial, ?_, ?_, ?_, ?_, ?_, ?_⟩
  · by_cases hrole : pdoc.role = UserRole.subscriber
    · rw [if_pos hrole]
      refine ⟨{ migratedProfile email pdoc newUid with
          sessionId := some env.freshSessionId, lastLoginAt := some env.now },
        ?_, rfl, rfl, rfl, rfl⟩
      rw [List.mem_filter]
      constructor
      · unfold updateUserDoc
        refine List.mem_map.2 ⟨migratedProfile email pdoc newUid, ?_, ?_⟩
        · exact List.mem_append_right _ (by simp)
        · simp [migratedProfile]
      · simpa [migratedProfile] using hne
    · rw [if_neg hrole]
      refine ⟨migratedProfile email pdoc newUid, ?_, rfl, rfl, rfl, rfl⟩
      rw [List.mem_filter]
      constructor
      · exact List.mem_append_right _ (by simp)
      · simpa [migratedProfile] using hne
  · intro u hu
    simp only [List.mem_filter] at hu
    simpa using hu.2
  · intro p hp
    simp only [List.mem_map] at hp
    obtain ⟨q, hq2, rfl⟩ := hp
    by_cases h : q.subscriberId = pdoc.id <;> simp [h, hne]
  · intro p hp href
    exact List.mem_map.2 ⟨p, hp, by simp [href]⟩
  · intro z hz
    simp only [List.mem_map] at hz
    obtain ⟨q, hq2, rfl⟩ := hz
    by_cases h : q.subscriberId = pdoc.id <;> simp [h, hne]
  · intro z hz href
    exact List.mem_map.2 ⟨z, hz, by simp [href]⟩

/-- Witness for C1: a concrete pending subscriber with one permission and one
assignment referencing the pending document id is migrated. -/
theorem signIn_migrates_pending_user_witness :
    (c1World.fs.users.filter (fun u => u.email == "a@b") = [c1Pdoc] ∧
     c1Pdoc.isPending = true ∧
     c1Pdoc.pendingPassword = some "pw" ∧
     c1Env.createUserResult = .ok "u9" ∧
     "u9" ≠ c1Pdoc.id) ∧
    (signIn c1Env "a@b" "pw" c1World).1 = { user := some "u9", error := none } ∧
    (∀ u ∈ (signIn c1Env "a@b" "pw" c1World).2.fs.users, u.id ≠ c1Pdoc.id) ∧
    (∀ p ∈ (signIn c1Env "a@b" "pw" c1World).2.fs.streamPermissions,
      p.subscriberId ≠ c1Pdoc.id) ∧
    (∀ z ∈ (signIn c1Env "a@b" "pw" c1World).2.fs.zoomAssignments,
      z.subscriberId ≠ c1Pdoc.id) := by
  have h := signIn_migrates_pending_user c1Env "a@b" "pw" c1World c1Pdoc "u9"
    (by decide) (by decide) (by decide) (by rfl) (by decide)
  exact ⟨⟨by decide, by decide, by decide, by rfl, by decide⟩,
    h.1, h.2.2.1, h.2.2.2.1, h.2.2.2.2.2.1⟩

/-! ## C2: single-session enforcement for subscribers -/

/-- C2: on a normal sign-in of a subscriber whose profile stores a session
token, if the browser holds a different (or no) local token and the stored
lastLoginAt is within the five-minute timeout, `signIn` signs the user back
out and returns user null with the blocking error message; a matching local
token, or a missing or expired lastLoginAt, lets the login proceed. -/
theorem signIn_single_session
    (env : AuthEnv) (email password : String) (w : World)
    (uid sid : String) (profile : UserDoc)
    (hnp : pendingMatch w.fs.users email password = false)
    (hauth : env.signInAuthResult = .ok uid)
    (hfind : w.fs.users.find? (fun u => u.id == uid) = some profile)
    (hrole : profile.role = .subscriber)
    (hsid : profile.sessionId = some sid) :
    ((w.localSessionId ≠ some sid ∧
        ∃ t, profile.lastLoginAt = some t ∧ env.now - t ≤ SESSION_TIMEOUT) →
      (signIn env email password w).1 = { user := none, error := some sessionBlockedMessage } ∧
      (signIn env email password w).2.authUser = none) ∧
    (w.localSessionId = some sid →
      (signIn env email password w).1 = { user := some uid, error := none }) ∧
    ((profile.lastLoginAt = none ∨
        ∃ t, profile.lastLoginAt = some t ∧ env.now - t > SESSION_TIMEOUT) →
      (signIn env email password w).1 = { user := some uid, error := none }) := by
  have hbody : signInBody env email password w = normalSignIn w env := by
    unfold signInBody pendingMatch at *
    cases hh : (w.fs.users.filter (fun u => u.email == email)).head? with
    | none => rfl
    | some d =>
      rw [hh] at hnp
      have hnp2 : (d.isPending && (d.pendingPassword == some password)) = false := hnp
      simp [hnp2]
  have hw1 : ({ w with authUser := some uid } : World).fs.users.find? (fun u => u.id == uid) =
      some profile := hfind
  refine ⟨?_, ?_, ?_⟩
  · rintro ⟨hneq, t, hll, hle⟩
    have hexp : (match profile.lastLoginAt with
        | none => true
        | some t => decide (env.now - t > SESSION_TIMEOUT)) = false := by
      rw [hll]
      simpa using hle
    simp [signIn, hbody, normalSignIn, hauth, hw1, hrole, hsid, hneq, hexp]
  · intro heq
    simp [signIn, hbody, normalSignIn, hauth, hw1, hrole, hsid, heq]
  · intro hcase
    by_cases heq : w.localSessionId = some sid
    · simp [signIn, hbody, normalSignIn, hauth, hw1, hrole, hsid, heq]
    · have hexp : (match profile.lastLoginAt with
          | none => true
          | some t => decide (env.now - t > SESSION_TIMEOUT)) = true := by
        rcases hcase with hnone | ⟨t, hll, hgt⟩
        · rw [hnone]
        · rw [hll]
          simpa using hgt
      simp [signIn, hbody, normalSignIn, hauth, hw1, hrole, hsid, heq, hexp]

/-- Witness for C2: a subscriber with a stored session token, no local token
in this browser, and a lastLoginAt 100 ms old is blocked and signed back
out. -/
theorem signIn_single_session_witness :
    (signIn c2Env "c@d" "pw" c2World).1 =
      { user := none, error := some sessionBlockedMessage } ∧
    (signIn c2Env "c@d" "pw" c2World).2.authUser = none := by
  have h := signIn_single_session c2Env "c@d" "pw" c2World "u1" "sOld" c2Profile
    (by decide) (by rfl) (by rfl) (by rfl) (by rfl)
  exact h.1 ⟨by decide, 100, by rfl, by decide⟩

/-! ## C7: the auth operations return error-shaped values instead of throwing -/

/-- Every non-throwing exit of the normal sign-in path is error shaped. -/
theorem normalSignIn_shape (w : World) (env : AuthEnv) :
    okErrorShaped (normalSignIn w env) := by
  unfold normalSignIn
  cases env.signInAuthResult with
  | error e => trivial
  | ok uid =>
    simp only
    split
    case h_2 => simp [okErrorShaped]
    case h_1 p hp =>
      by_cases hr : p.role = UserRole.subscriber
      · rw [if_pos hr]
        cases p.sessionId with
        | none => simp [okErrorShaped]
        | some sid =>
          simp only
          split_ifs <;> simp [okErrorShaped]
      · rw [if_neg hr]
        simp [okErrorShaped]

/-- Every non-throwing exit of the `signIn` body is error shaped. -/
theorem signInBody_shape (env : AuthEnv) (email password : String) (w : World) :
    okErrorShaped (signInBody env email password w) := by
  unfold signInBody
  cases (w.fs.users.filter (fun u => u.email == email)).head? with
  | none => exact normalSignIn_shape w env
  | some d =>
    simp only
    by_cases hp : (d.isPending && (d.pendingPassword == some password)) = true
    · rw [if_pos hp]
      cases env.createUserResult with
      | error e => trivial
      | ok uid => simp [okErrorShaped, migratePendingUser]
    · rw [if_neg hp]
      exact normalSignIn_shape w env

/-- C7: for every environment behavior, `signIn` and `signUp` return either a
user with no error or no user with an error message, and `signOutOp` returns
exactly the provider failure message when the provider sign-out fails and no
error otherwise; every internal failure is caught and surfaced in the returned
object, never propagated. -/
theorem auth_operations_error_shaped (env : AuthEnv) (email password : String)
    (role : UserRole) (dn : Option String) (w : World) :
    (((signIn env email password w).1.user = none ∧
        ((signIn env email password w).1.error).isSome = true) ∨
      (((signIn env email password w).1.user).isSome = true ∧
        (signIn env email password w).1.error = none)) ∧
    (((signUp env email password role dn w).1.user = none ∧
        ((signUp env email password role dn w).1.error).isSome = true) ∨
      (((signUp env email password role dn w).1.user).isSome = true ∧
        (signUp env email password role dn w).1.error = none)) ∧
    ((signOutOp env w).1 = match env.signOutAuthResult with
      | .ok _ => none
      | .error e => some e) := by
  refine ⟨?_, ?_, ?_⟩
  · have key : okErrorShaped (signInBody env email password w) :=
      signInBody_shape env email password w
    cases hb : signInBody env email password w with
    | error e => left; simp [signIn, hb]
    | ok r =>
      obtain ⟨o, w2⟩ := r
      rw [hb] at key
      have key2 : (o.user = none ∧ o.error.isSome = true) ∨
          (o.user.isSome = true ∧ o.error = none) := key
      have hsi : signIn env email password w = (o, w2) := by simp [signIn, hb]
      rw [hsi]
      exact key2
  · cases hc : env.createUserResult with
    | error e => left; simp [signUp, hc]
    | ok uid => right; simp [signUp, hc]
  · unfold signOutOp
    cases env.signOutAuthResult <;> simp

/-! ## C5: cleanup targeting -/

/-- C5 (amended): every kick request issued by the GET cleanup sweep targets a
reported channel that is older than one hour and has a nonzero user count,
while a kick request issued by the POST force-cleanup-all action only requires
a nonzero user count and ignores the age threshold. -/
theorem cleanup_kick_targets (channels : List AgoraChannel)
    (usersOf : String → Option (List Nat)) (now : Nat) (ch : String) (u : Nat) :
    (({ channelName := ch, uid := u } : KickRequest) ∈ cleanupGetKicks channels usersOf now →
      ∃ c ∈ channels, c.channelName = ch ∧ c.created * 1000 < now - ONE_HOUR_MS ∧
        c.userCount > 0) ∧
    (({ channelName := ch, uid := u } : KickRequest) ∈ cleanupForceAllKicks channels usersOf →
      ∃ c ∈ channels, c.channelName = ch ∧ c.userCount > 0) := by
  constructor
  · intro hmem
    simp only [cleanupGetKicks, List.mem_bind, lingeringChannels, List.mem_filter,
      Bool.and_eq_true, decide_eq_true_eq] at hmem
    obtain ⟨c, ⟨hc, hold, hcount⟩, hmem2⟩ := hmem
    have hch : c.channelName = ch := by
      cases hu : usersOf c.channelName with
      | none => rw [hu] at hmem2; simp at hmem2
      | some us =>
        rw [hu] at hmem2
        simp only [List.mem_map] at hmem2
        obtain ⟨x, _, hx⟩ := hmem2
        exact congrArg KickRequest.channelName hx
    exact ⟨c, hc, hch, hold, hcount⟩
  · intro hmem
    simp only [cleanupForceAllKicks, List.mem_bind, List.mem_filter,
      decide_eq_true_eq] at hmem
    obtain ⟨c, ⟨hc, hcount⟩, hmem2⟩ := hmem
    have hch : c.channelName = ch := by
      cases hu : usersOf c.channelName with
      | none => rw [hu] at hmem2; simp at hmem2
      | some us =>
        rw [hu] at hmem2
        simp only [List.mem_map] at hmem2
        obtain ⟨x, _, hx⟩ := hmem2
        exact congrArg KickRequest.channelName hx
    exact ⟨c, hc, hch, hcount⟩

/-- C5 counterexample: at current time 1000000 ms the channel created at
second 1000 (millisecond 1000000, so not older than one hour) with one user
is still kicked by the POST force-cleanup-all action, so the cleanup POST
route does not respect the one-hour threshold. -/
theorem cleanup_forceAll_ignores_age :
    cleanupForceAllKicks [c5Channel] (fun _ => some [7]) =
      [{ channelName := "ch", uid := 7 }] ∧
    ¬(c5Channel.created * 1000 < 1000000 - ONE_HOUR_MS) := by
  constructor
  · rfl
  · decide

/-- Witness for the amended C5 theorem: a kick issued by the GET sweep leads
to a channel that is indeed old and populated. -/
theorem cleanup_kick_targets_witness :
    ∃ c ∈ [c5WitChannel], c.channelName = "old" ∧
      c.created * 1000 < 7300000 - ONE_HOUR_MS ∧ c.userCount > 0 :=
  (cleanup_kick_targets [c5WitChannel] (fun _ => some [3]) 7300000 "old" 3).1 (by decide)

/-! ## C6: forced-disconnect rejoin -/

/-- C6: on a connection-state change to DISCONNECTED with a stored last join
configuration, the handler schedules exactly one rejoin, after the fixed
1500 ms delay, using the stored configuration; with no stored configuration,
or on any other state, it schedules nothing. -/
theorem forced_disconnect_single_rejoin (cfg : Option JoinConfig) (c : JoinConfig)
    (cur : String) :
    (cur = "DISCONNECTED" → cfg = some c →
      handleConnectionStateChange cfg cur = [{ delayMs := 1500, config := c }]) ∧
    (cfg = none → handleConnectionStateChange cfg cur = []) ∧
    (cur ≠ "DISCONNECTED" → handleConnectionStateChange cfg cur = []) := by
  refine ⟨?_, ?_, ?_⟩
  · rintro rfl rfl
    simp [handleConnectionStateChange]
  · rintro rfl
    simp [handleConnectionStateChange]
  · intro hne
    simp [handleConnectionStateChange, hne]

/-- Witness for C6 on concrete states and configurations. -/
theorem forced_disconnect_single_rejoin_witness :
    handleConnectionStateChange (some c6Config) "DISCONNECTED" =
      [{ delayMs := 1500, config := c6Config }] ∧
    handleConnectionStateChange none "DISCONNECTED" = [] ∧
    handleConnectionStateChange (some c6Config) "CONNECTED" = [] :=
  ⟨(forced_disconnect_single_rejoin (some c6Config) c6Config "DISCONNECTED").1 rfl rfl,
   (forced_disconnect_single_rejoin none c6Config "DISCONNECTED").2.1 rfl,
   (forced_disconnect_single_rejoin (some c6Config) c6Config "CONNECTED").2.2 (by decide)⟩

/-! ## C8: leave resets the manager state -/

/-- C8: after `leave` completes, whatever the outcomes of the underlying SDK
calls, the client, tracks, and last join configuration are null, the remote
user map and network-quality history are empty, and the consecutive-good-
readings counter is zero. -/
theorem leave_resets_state (s : MgrState) (env : LeaveEnv) :
    (leave s env).1.client = none ∧
    (leave s env).1.localAudio = none ∧
    (leave s env).1.localVideo = none ∧
    (leave s env).1.screenTrack = none ∧
    (leave s env).1.lastJoinConfig = none ∧
    (leave s env).1.remoteUsers = [] ∧
    (leave s env).1.networkQualityHistory = [] ∧
    (leave s env).1.consecutiveGoodReadings = 0 ∧
    (leave s env).1.networkQualityInterval = none := by
  refine ⟨rfl, rfl, rfl, rfl, rfl, rfl, rfl, rfl, rfl⟩

/-! ## C9: microphone volume clamping -/

/-- C9: `setMicVolume` passes max(0, min(100, volume)) to the underlying
setVolume call when a local audio track exists, is a no-op when none exists,
and `getMicVolume` returns 0 when no local audio track exists. -/
theorem setMicVolume_clamps (v : Int) (lvl : Except String Int) :
    setMicVolume (some ()) v = some (max 0 (min 100 v)) ∧
    setMicVolume none v = none ∧
    getMicVolume none lvl = 0 :=
  ⟨rfl, rfl, rfl⟩
